import Mathlib

/-!
Verification development for the Intelligent-vehicle-Agent-System frontend core
(`src/frontend/src/Dashboard.js`, `src/frontend/src/App.js`).

The JavaScript string operations are shallowly embedded as total Lean functions
over `String` / `List Char`:
* `jsIncludes` models `String.prototype.includes`;
* `jsTrim` models `String.prototype.trim`;
* `jsToLower` models `String.prototype.toLowerCase` (ASCII case mapping, which
  covers every marker and keyword the code compares against);
* `jsSplitNl` models `content.split('\n')`;
* the `match`/`replace` calls on the handful of fixed regular expressions in
  the source are embedded as dedicated first-order scanners, each documented at
  its definition with the regex it implements.

Timestamps (`new Date(...)` values) are embedded as `Int` milliseconds since
the Unix epoch; calendar conversions (`toDateString`, `getFullYear`,
`toLocaleDateString`) use the proleptic Gregorian civil-from-days algorithm on
the UTC timeline.
-/

namespace IVAS

/-- `leadsWith pat l` : `pat` is a prefix of `l` (on character lists). -/
def leadsWith : List Char → List Char → Bool
  | [], _ => true
  | _ :: _, [] => false
  | a :: as, b :: bs => a == b && leadsWith as bs

/-- `containsL pat l` : `pat` occurs as a contiguous substring of `l`.
Substring search underlying `String.prototype.includes`. -/
def containsL (pat : List Char) : List Char → Bool
  | [] => pat.isEmpty
  | a :: rest => leadsWith pat (a :: rest) || containsL pat rest

/-- Models JavaScript `s.includes(pat)`. -/
def jsIncludes (s pat : String) : Bool :=
  containsL pat.data s.data

/-- Models JavaScript `s.toLowerCase()` (ASCII case mapping). -/
def jsToLower (s : String) : String :=
  String.mk (s.data.map Char.toLower)

/-- Whitespace as trimmed by `String.prototype.trim` (the code only ever
produces ASCII whitespace: space, tab, CR, LF). -/
def wsChar (c : Char) : Bool := c.isWhitespace

/-- Drop leading and trailing whitespace from a character list. -/
def trimList (l : List Char) : List Char :=
  ((l.dropWhile wsChar).reverse.dropWhile wsChar).reverse

/-- Models JavaScript `s.trim()`. -/
def jsTrim (s : String) : String :=
  String.mk (trimList s.data)

/-- Split a character list at every occurrence of the character `c`
(JavaScript `split(c)` semantics: `"".split(c) = [""]`, separators are
dropped, empty segments are kept). -/
def splitChar (c : Char) : List Char → List (List Char)
  | [] => [[]]
  | a :: rest =>
    if a = c then [] :: splitChar c rest
    else
      match splitChar c rest with
      | h :: t => (a :: h) :: t
      | [] => [[a]]

/-- Models JavaScript `content.split('\n')` (raw, unfiltered). -/
def jsSplitNl (s : String) : List String :=
  (splitChar '\n' s.data).map String.mk

/-- The repeated source idiom `content.split('\n').filter(line => line.trim())`:
split on newlines and keep only lines whose trim is non-empty (JavaScript
truthiness of the trimmed string). -/
def jsLines (s : String) : List String :=
  (jsSplitNl s).filter (fun l => (jsTrim l).length != 0)

/-- Models `s.replace(pat, '')` for a literal string `pat` (JavaScript
`replace` with a string argument removes the first occurrence only). -/
def removeFirstL (pat : List Char) : List Char → List Char
  | [] => []
  | a :: rest =>
    if pat ≠ [] && leadsWith pat (a :: rest) then (a :: rest).drop pat.length
    else a :: removeFirstL pat rest

/-- If some pattern in `pats` (tried in order, all non-empty at use sites) is a
prefix of `l`, return `l` with that pattern stripped. -/
def stripAnyLead (pats : List (List Char)) (l : List Char) : Option (List Char) :=
  pats.findSome? fun pat =>
    if pat ≠ [] && leadsWith pat l then some (l.drop pat.length) else none

/-- Fuel-driven worker for `removeAllAny`; the fuel starts at the length of the
list and each step consumes at least one character, so it never runs out. -/
def removeAllAnyAux (pats : List (List Char)) : Nat → List Char → List Char
  | 0, l => l
  | _ + 1, [] => []
  | fuel + 1, a :: rest =>
    match stripAnyLead pats (a :: rest) with
    | some suffix => removeAllAnyAux pats fuel suffix
    | none => a :: removeAllAnyAux pats fuel rest

/-- Models `s.replace(/p1|p2|.../g, '')` for literal alternatives: at each
position the alternatives are tried in order; on a match the scan resumes
after the matched text. -/
def removeAllAny (pats : List String) (s : String) : String :=
  String.mk (removeAllAnyAux (pats.map String.data) s.data.length s.data)

/-- The character class of the emoji-stripping regex
`/[\u{1F300}-\u{1F9FF}]|[\u{2600}-\u{26FF}]|[\u{2700}-\u{27BF}]/gu`. -/
def emojiChar (c : Char) : Bool :=
  (0x1F300 ≤ c.toNat && c.toNat ≤ 0x1F9FF) ||
  (0x2600 ≤ c.toNat && c.toNat ≤ 0x26FF) ||
  (0x2700 ≤ c.toNat && c.toNat ≤ 0x27BF)

/-- Models `s.replace(emojiRegex, '')`: every match of the regex is a single
character of the class, so the global replace is a filter. -/
def stripEmojis (s : String) : String :=
  String.mk (s.data.filter (fun c => !emojiChar c))

/-- Case-insensitive `leadsWith`, for the `/i` regexes (ASCII case folding). -/
def ciLeadsWith : List Char → List Char → Bool
  | [], _ => true
  | _ :: _, [] => false
  | a :: as, b :: bs => a.toLower == b.toLower && ciLeadsWith as bs

/-- Characters matched by `.` in a JavaScript regex without the `s` flag:
everything except a line terminator. -/
def nonNl (c : Char) : Bool :=
  c ≠ '\n' && c ≠ '\r' && c.toNat ≠ 0x2028 && c.toNat ≠ 0x2029

/-- Leftmost-match driver: try `matchAt` at each position of the subject,
including the end-of-string position, returning the first success. -/
def scanFirst (matchAt : List Char → Option α) : List Char → Option α
  | [] => matchAt []
  | a :: rest => (matchAt (a :: rest)).orElse (fun _ => scanFirst matchAt rest)

/-- Global-match driver (`String.prototype.match` with `/g`): collect every
non-overlapping match, resuming after each; `matchAt` yields a match length.
Fuel starts at the subject length; every step consumes at least one character. -/
def scanMatchesAux (matchAt : List Char → Option Nat) : Nat → List Char → List (List Char)
  | 0, _ => []
  | _ + 1, [] => []
  | fuel + 1, a :: rest =>
    match matchAt (a :: rest) with
    | some (n + 1) => (a :: rest).take (n + 1) :: scanMatchesAux matchAt fuel ((a :: rest).drop (n + 1))
    | _ => scanMatchesAux matchAt fuel rest

/-- Global-split driver (`String.prototype.split` with a regex): the segments
between non-overlapping matches, empty segments kept. -/
def scanSplitAux (matchAt : List Char → Option Nat) : Nat → List Char → List (List Char)
  | 0, l => [l]
  | _ + 1, [] => [[]]
  | fuel + 1, a :: rest =>
    match matchAt (a :: rest) with
    | some (n + 1) => [] :: scanSplitAux matchAt fuel ((a :: rest).drop (n + 1))
    | _ =>
      match scanSplitAux matchAt fuel rest with
      | h :: t => (a :: h) :: t
      | [] => [[a]]

/-- `.+ pat` : at least one `.`-character followed by `pat` (case-insensitive),
somewhere in the subject; used by the dispatch regex `/Found \d+ .+ near you/i`. -/
def dotPlusThen (pat : List Char) : List Char → Bool
  | [] => false
  | c :: rest => nonNl c && (ciLeadsWith pat rest || dotPlusThen pat rest)

/-- Test of the dispatch regex `/Found \d+ .+ near you/i` (Dashboard.js
`formatResponse`). -/
def foundNearYouTest (s : String) : Bool :=
  (scanFirst (fun l =>
    if ciLeadsWith "found ".data l then
      let r := l.drop 6
      let ds := r.takeWhile Char.isDigit
      if ds.isEmpty then none
      else
        match r.drop ds.length with
        | ' ' :: r3 => if dotPlusThen " near you".data r3 then some () else none
        | _ => none
    else none) s.data).isSome

/-- Tail test for the header regex: `(?:\s*\(|near you)` — a `(` after optional
whitespace, or the literal `near you` (case-insensitive). -/
def catTail (rest : List Char) : Bool :=
  ((rest.dropWhile wsChar).head? == some '(') || ciLeadsWith "near you".data rest

/-- The lazy category group `([^(]+?)` of the header regex: grow the group one
character at a time (never across `(`) until `catTail` matches. -/
def catSearchAux (acc : List Char) : List Char → Option (List Char)
  | [] => none
  | c :: rest =>
    if c = '(' then none
    else
      let acc2 := acc ++ [c]
      if catTail rest then some acc2 else catSearchAux acc2 rest

/-- First match of `/Found (\d+) ([^(]+?)(?:\s*\(|near you)/i`, returning the
two capture groups (count digits, raw category). Used by
`formatPlaceSearchResponse` and by the speech summarizer place branch.
The greedy `\d+` backtracks from the longest digit run downwards. -/
def foundHeader (s : String) : Option (String × String) :=
  scanFirst (fun l =>
    if ciLeadsWith "found ".data l then
      let r := l.drop 6
      let ds := r.takeWhile Char.isDigit
      if ds.isEmpty then none
      else
        (List.range ds.length).findSome? fun i =>
          let k := ds.length - i
          let cnt := r.take k
          let rest := r.drop k
          (catSearchAux [] rest).map fun cat => (String.mk cnt, String.mk cat)
    else none) s.data

/-- The capture `([^.]+)` (greedy, at least one non-period character). -/
def capTail (r : List Char) : Option (List Char) :=
  let g := r.takeWhile (· ≠ '.')
  if g.isEmpty then none else some g

/-- First match of `/(?:you are (?:in|at)|current location[:\s]+)([^.]+)/i`,
returning the capture group (speech summarizer location branch). The greedy
`[:\s]+` gives one character back to the capture when nothing else follows. -/
def locCap (s : String) : Option (List Char) :=
  scanFirst (fun l =>
    if ciLeadsWith "you are in".data l || ciLeadsWith "you are at".data l then
      capTail (l.drop 10)
    else if ciLeadsWith "current location".data l then
      let r := l.drop 16
      let run := r.takeWhile (fun c => c = ':' || wsChar c)
      if run.isEmpty then none
      else
        match capTail (r.drop run.length) with
        | some g => some g
        | none => if 2 ≤ run.length then some [run.getLastD ' '] else none
    else none) s.data

/-- Length of a match of `/📍\s*([^⭐(]+?)(?:\s*\(|\s*⭐|$)/` anchored at the
subject; the greedy `\s*` backtracks outwards, the lazy group grows inwards,
the alternatives are tried in order. -/
def placeMatchAt : List Char → Option Nat
  | '📍' :: r =>
    let maxw := (r.takeWhile wsChar).length
    (List.range (maxw + 1)).findSome? fun i =>
      let w := maxw - i
      let afterW := r.drop w
      (List.range afterW.length).findSome? fun j0 =>
        let j := j0 + 1
        let g := afterW.take j
        if g.all (fun c => c ≠ '⭐' && c ≠ '(') then
          let t := afterW.drop j
          let wa := (t.takeWhile wsChar).length
          if (t.drop wa).head? == some '(' then some (1 + w + j + wa + 1)
          else if (t.drop wa).head? == some '⭐' then some (1 + w + j + wa + 1)
          else if t.isEmpty then some (1 + w + j)
          else none
        else none
  | _ => none

/-- `text.match(/📍\s*([^⭐(]+?)(?:\s*\(|\s*⭐|$)/g)`: the list of full matches. -/
def placeMatches (s : String) : List String :=
  (scanMatchesAux placeMatchAt s.data.length s.data).map String.mk

/-- The numeric token `(\d+\.?\d*(?:\/\d+)?)` anchored at the subject. -/
def numTokenAt (l : List Char) : Option (List Char) :=
  let d1 := l.takeWhile Char.isDigit
  if d1.isEmpty then none
  else
    let slashPart : List Char → List Char := fun r =>
      match r with
      | '/' :: r2 =>
        let d3 := r2.takeWhile Char.isDigit
        if d3.isEmpty then [] else '/' :: d3
      | _ => []
    match l.drop d1.length with
    | '.' :: r2 =>
      let d2 := r2.takeWhile Char.isDigit
      some (d1 ++ '.' :: d2 ++ slashPart (r2.drop d2.length))
    | r => some (d1 ++ slashPart r)

/-- First match group of `/⭐\s*(\d+\.?\d*(?:\/\d+)?)/`. -/
def starRating (s : String) : Option String :=
  (scanFirst (fun l =>
    match l with
    | '⭐' :: r => numTokenAt (r.dropWhile wsChar)
    | _ => none) s.data).map String.mk

/-- First match group of `/(\d+\.?\d*(?:\/\d+)?)/` (non-parenthesized rating). -/
def numToken (s : String) : Option String :=
  (scanFirst numTokenAt s.data).map String.mk

/-- First match group of `/📮\s*(.+)/` (place address). -/
def addrCap (s : String) : Option String :=
  (scanFirst (fun l =>
    match l with
    | '📮' :: r =>
      let maxw := (r.takeWhile wsChar).length
      (List.range (maxw + 1)).findSome? fun i =>
        let w := maxw - i
        let g := (r.drop w).takeWhile nonNl
        if g.isEmpty then none else some g
    | _ => none) s.data).map String.mk

/-- Match of `/^(\d+)\.\s*(.+)/` at the start of a line: the step/entry index
digits and the content after the optional whitespace. -/
def numberedMatch (l : List Char) : Option (List Char × List Char) :=
  let ds := l.takeWhile Char.isDigit
  if ds.isEmpty then none
  else
    match l.drop ds.length with
    | '.' :: r =>
      let maxw := (r.takeWhile wsChar).length
      ((List.range (maxw + 1)).findSome? fun i =>
        let w := maxw - i
        let g := (r.drop w).takeWhile nonNl
        if g.isEmpty then none else some g).map fun g => (ds, g)
    | _ => none

/-- Test of `/^\d+\./` (a line that begins with an integer and a period). -/
def startsNumDot (s : String) : Bool :=
  let ds := s.data.takeWhile Char.isDigit
  !ds.isEmpty && ((s.data.drop ds.length).head? == some '.')

/-- First match group of `/\(([^)]+)\)/` (parenthesized distance segment). -/
def parenCap (s : String) : Option String :=
  (scanFirst (fun l =>
    match l with
    | '(' :: r =>
      let g := r.takeWhile (· ≠ ')')
      if g.isEmpty then none
      else if (r.drop g.length).head? == some ')' then some g else none
    | _ => none) s.data).map String.mk

/-- First full match of `/https:\/\/[^\s]+/` (maps URL in a directions line). -/
def urlFirst (s : String) : Option String :=
  (scanFirst (fun l =>
    if leadsWith "https://".data l then
      let g := (l.drop 8).takeWhile (fun c => !wsChar c)
      if g.isEmpty then none else some ("https://".data ++ g)
    else none) s.data).map String.mk

/-- Length of a match of `/https:\/\/www\.google\.com\/maps[^\s]*/` anchored at
the subject. -/
def gmapsLenAt (l : List Char) : Option Nat :=
  let pat := "https://www.google.com/maps".data
  if leadsWith pat l then
    some (pat.length + ((l.drop pat.length).takeWhile (fun c => !wsChar c)).length)
  else none

/-- First full match of the Google-Maps URL regex. -/
def gmapsFirst (s : String) : Option String :=
  (scanFirst (fun l => (gmapsLenAt l).map l.take) s.data).map String.mk

/-- `content.split(/https:\/\/www\.google\.com\/maps[^\s]*/)`. -/
def gmapsParts (s : String) : List String :=
  (scanSplitAux gmapsLenAt s.data.length s.data).map String.mk

/-- Models `s.replace(/📍\s*/, '')` (first pin glyph and following whitespace). -/
def removePinWs : List Char → List Char
  | [] => []
  | '📍' :: rest => rest.dropWhile wsChar
  | a :: rest => a :: removePinWs rest

/-- Models `s.replace(/\s*\($/, '')` (trailing whitespace-then-paren). -/
def removeTrailParen (l : List Char) : List Char :=
  if l.getLast? == some '(' then (l.dropLast.reverse.dropWhile wsChar).reverse else l

/-- UTF-8 bytes of a character (for `encodeURIComponent`). -/
def utf8Bytes (c : Char) : List Nat :=
  let n := c.toNat
  if n < 0x80 then [n]
  else if n < 0x800 then [0xC0 + n / 0x40, 0x80 + n % 0x40]
  else if n < 0x10000 then
    [0xE0 + n / 0x1000, 0x80 + n / 0x40 % 0x40, 0x80 + n % 0x40]
  else
    [0xF0 + n / 0x40000, 0x80 + n / 0x1000 % 0x40, 0x80 + n / 0x40 % 0x40, 0x80 + n % 0x40]

/-- Upper-case hexadecimal digit. -/
def hexDigit (n : Nat) : Char :=
  if n < 10 then Char.ofNat (48 + n) else Char.ofNat (55 + n)

/-- Characters `encodeURIComponent` leaves unescaped:
alphanumerics and `- _ . ! ~ * ' ( )`. -/
def uriUnreserved (c : Char) : Bool :=
  c.isAlphanum || c = '-' || c = '_' || c = '.' || c = '!' || c = '~' ||
  c = '*' || c = Char.ofNat 39 || c = '(' || c = ')'

/-- Models JavaScript `encodeURIComponent`. -/
def encodeURIComponent (s : String) : String :=
  String.mk (s.data.flatMap fun c =>
    if uriUnreserved c then [c]
    else (utf8Bytes c).flatMap fun b => ['%', hexDigit (b / 16), hexDigit (b % 16)])

/-! ## The classifier data model (spec §3 ClassifiedResult)

Each formatter in Dashboard.js builds a React tree; the structured fields it
extracts and renders are embedded as the corresponding result record, and the
choice of formatter as the variant tag. -/

/-- One place card of a place-search response. -/
structure PlaceEntry where
  name : String
  distance : String
  rating : Option String
  status : String
  address : String
  mapsUrl : String
deriving DecidableEq, Repr

/-- The place-search result: header count and category plus the parsed cards.
`count` is kept as the matched digit string, as in the source. -/
structure PlaceSearchResult where
  count : String
  category : String
  entries : List PlaceEntry
deriving DecidableEq, Repr

/-- The directions result; steps are `(index, instruction)` pairs. -/
structure DirectionsResult where
  destination : String
  distance : String
  duration : String
  mapsUrl : String
  steps : List (String × String)
deriving DecidableEq, Repr

/-- The general (fallback) result, possibly split around an embedded maps URL.
`after` holds the raw second segment (the renderer shows it trimmed and only
when truthy). -/
inductive GeneralResult
  | plain (text : String)
  | withMap (before url after : String)
deriving DecidableEq, Repr

/-- The tagged variant returned by `formatResponse` (spec ClassifiedResult). -/
inductive ClassifiedResult
  | directions (d : DirectionsResult)
  | location (text : String)
  | placeSearch (p : PlaceSearchResult)
  | general (g : GeneralResult)
  | error (raw : String)
deriving DecidableEq, Repr

/-- Whether a classified result is the place-search variant. -/
def ClassifiedResult.isPlaceSearch : ClassifiedResult → Bool
  | .placeSearch _ => true
  | _ => false

/-- Whether a classified result is the general variant. -/
def ClassifiedResult.isGeneral : ClassifiedResult → Bool
  | .general _ => true
  | _ => false

/-! ## formatGeneralResponse (Dashboard.js 1194-1234) -/

/-- `formatGeneralResponse`: split out an embedded Google-Maps link when one is
present, otherwise wrap the text unchanged. -/
def formatGeneralResponse (content : String) : GeneralResult :=
  if jsIncludes content "https://www.google.com/maps" then
    let parts := gmapsParts content
    match gmapsFirst content with
    | some url =>
      if 1 < parts.length then
        GeneralResult.withMap (jsTrim (parts.headD "")) url (parts.getD 1 "")
      else GeneralResult.plain content
    | none => GeneralResult.plain content
  else GeneralResult.plain content

/-! ## formatPlaceSearchResponse (Dashboard.js 878-1032) -/

/-- The body of the numbered-entry loop in `formatPlaceSearchResponse`:
parse one line into a place card, or `none` when the line is not a numbered
entry or no name survives extraction (such entries are dropped silently). -/
def parsePlaceLine (line : String) : Option PlaceEntry :=
  match numberedMatch (jsTrim line).data with
  | none => none
  | some (_, entryContent) =>
    let cleanLine := jsTrim (String.mk (removeFirstL "📍".data entryContent))
    let parsed : String × String × String × String × String :=
      match parenCap cleanLine with
      | some dist =>
        let name0 := jsTrim (String.mk (cleanLine.data.takeWhile (· ≠ '(')))
        let afterDistance := jsTrim (String.mk ((cleanLine.data.dropWhile (· ≠ ')')).drop 1))
        let rating := (starRating afterDistance).getD ""
        let status :=
          if jsIncludes afterDistance "🟢" then "Open"
          else if jsIncludes afterDistance "🔴" then "Closed"
          else ""
        let address := ((addrCap afterDistance).map jsTrim).getD ""
        (name0, dist, rating, status, address)
      | none =>
        let parts := (splitChar '⭐' cleanLine.data).map String.mk
        let name0 := jsTrim (parts.headD "")
        let rating :=
          if 1 < parts.length then ((numToken (jsTrim (parts.getD 1 ""))).getD "")
          else ""
        (name0, "", rating, "", "")
    let name0 := parsed.1
    let distance := parsed.2.1
    let rating := parsed.2.2.1
    let status := parsed.2.2.2.1
    let address := parsed.2.2.2.2
    let name := jsTrim (String.mk (name0.data.filter fun c =>
      !(c = '⭐' || c = '🟢' || c = '🔴' || c = '📮')))
    if name = "" then none
    else some
      { name := name
        distance := distance
        rating := if rating = "" then none else some ("⭐ " ++ rating)
        status := status
        address := address
        mapsUrl := "https://www.google.com/maps/search/" ++
          encodeURIComponent (name ++ (if address = "" then "" else " " ++ address)) }

/-- `formatPlaceSearchResponse`: header regex supplies count and category;
numbered lines after the header become place cards; a header mismatch falls
back to the general formatter. -/
def formatPlaceSearchResponse (content : String) : ClassifiedResult :=
  let lines := jsLines content
  let headerLine := lines.headD ""
  match foundHeader headerLine with
  | none => ClassifiedResult.general (formatGeneralResponse content)
  | some (count, placeType0) =>
    ClassifiedResult.placeSearch
      { count := count
        category := jsTrim placeType0
        entries := (lines.drop 1).filterMap parsePlaceLine }

/-! ## formatDirectionsResponse (Dashboard.js 1035-1178) -/

/-- Accumulator of the line scan in `formatDirectionsResponse`. -/
structure DirScan where
  destination : String := ""
  distance : String := ""
  duration : String := ""
  mapsUrl : String := ""
  steps : List String := []
  hasError : Bool := false
deriving DecidableEq, Repr

/-- One iteration of the `for (const line of lines)` scan. -/
def dirScanStep (acc : DirScan) (line : String) : DirScan :=
  let t := jsTrim line
  if jsIncludes t "📍 Destination:" then
    { acc with destination := jsTrim (String.mk (removeFirstL "📍 Destination:".data t.data)) }
  else if jsIncludes t "📏 Distance:" then
    { acc with distance := jsTrim (String.mk (removeFirstL "📏 Distance:".data t.data)) }
  else if jsIncludes t "⏱️ Duration:" then
    { acc with duration := jsTrim (String.mk (removeFirstL "⏱️ Duration:".data t.data)) }
  else if jsIncludes t "🌐 Open in Google Maps:" then
    match urlFirst t with
    | some u => { acc with mapsUrl := u }
    | none => acc
  else if startsNumDot t then { acc with steps := acc.steps ++ [t] }
  else if jsIncludes t "❌" then { acc with hasError := true }
  else acc

/-- The whole line scan of `formatDirectionsResponse`. -/
def dirScan (content : String) : DirScan :=
  (jsLines content).foldl dirScanStep {}

/-- `formatDirectionsResponse`: on an error marker or a missing destination the
original text is returned verbatim as the error variant; otherwise the parsed
directions, steps renumbered from their own leading index when it parses and
positionally otherwise. -/
def formatDirectionsResponse (content : String) : ClassifiedResult :=
  let sc := dirScan content
  if sc.hasError || sc.destination == "" then ClassifiedResult.error content
  else
    ClassifiedResult.directions
      { destination := sc.destination
        distance := sc.distance
        duration := sc.duration
        mapsUrl := sc.mapsUrl
        steps := sc.steps.enum.map fun p =>
          match numberedMatch p.2.data with
          | some (num, instr) => (String.mk num, String.mk instr)
          | none => (toString (p.1 + 1), p.2) }

/-! ## formatLocationResponse and formatResponse (Dashboard.js 1180-1250) -/

/-- `formatLocationResponse`: the first non-blank line, pin glyph stripped. -/
def formatLocationResponse (content : String) : ClassifiedResult :=
  ClassifiedResult.location
    (jsTrim (String.mk (removeFirstL "📍".data ((jsLines content).headD "").data)))

/-- The directions-dispatch condition of `formatResponse`. -/
def dirCondition (content : String) : Bool :=
  jsIncludes content "Turn-by-turn directions" || jsIncludes content "📋" ||
    jsIncludes content "🧭"

/-- The location-dispatch condition of `formatResponse`: a pin glyph and at
most three raw lines. -/
def locCondition (content : String) : Bool :=
  jsIncludes content "📍" && decide ((jsSplitNl content).length ≤ 3)

/-- The place-search-dispatch condition of `formatResponse`. -/
def placeCondition (content : String) : Bool :=
  foundNearYouTest content || jsIncludes content "🔍"

/-- `formatResponse` — the spec's `classify`: dispatch on content markers, in
source order, falling back to the general formatter. An empty content renders
the fixed "No response content" text. -/
def formatResponse (content : String) : ClassifiedResult :=
  if content.length = 0 then ClassifiedResult.general (GeneralResult.plain "No response content")
  else if dirCondition content then formatDirectionsResponse content
  else if locCondition content then formatLocationResponse content
  else if placeCondition content then formatPlaceSearchResponse content
  else ClassifiedResult.general (formatGeneralResponse content)

/-! ## extractKeyInfoForSpeech (Dashboard.js 58-209) — the spec's `summarize`

The rule ladder is embedded block by block; a block returns `none` when
control falls through it in the source, and the main function chains the
blocks in source order. All keyword guards test `cleanText`, the lowercased
input, exactly as in the source. -/

/-- Block 1, location queries: on the phrasing guard, the capture of the
location regex (when it matches) is spoken. -/
def speechBranch1 (text cleanText : String) : Option String :=
  if jsIncludes cleanText "your current location" || jsIncludes cleanText "you are in" ||
      jsIncludes cleanText "you are at" then
    (locCap text).map fun g => "You are in " ++ jsTrim (String.mk g)
  else none

/-- Block 2, place search: header count/category plus up to three place names
with natural-language joining. -/
def speechBranch2 (text cleanText : String) : Option String :=
  if jsIncludes cleanText "found" && jsIncludes cleanText "near" then
    match foundHeader text with
    | some (count, placeType0) =>
      let placeType := jsTrim placeType0
      let pm := placeMatches text
      if 0 < pm.length then
        let places := (pm.map fun m => jsTrim (String.mk (removeTrailParen (removePinWs m.data)))).take 3
        let n := count.toNat?.getD 0
        some ("I found " ++ count ++ " " ++ placeType ++ " near you. " ++
          (if places.length = 0 then ""
           else if places.length = 1 then "Including " ++ places.getD 0 "" ++ "."
           else if places.length = 2 then
             "Including " ++ places.getD 0 "" ++ " and " ++ places.getD 1 "" ++ "."
           else
             "Including " ++ places.getD 0 "" ++ ", " ++ places.getD 1 "" ++ ", and " ++
               places.getD 2 "" ++
               (if 3 < n then ", plus " ++ toString (n - 3) ++ " more options." else ".")))
      else none
    | none => none
  else none

/-- Block 3, navigation: destination, distance and duration lines condensed
into one sentence (always returns under its guard). -/
def speechBranch3 (text cleanText : String) : Option String :=
  if jsIncludes cleanText "distance:" && jsIncludes cleanText "duration:" then
    let lines := jsLines text
    let distanceLine := lines.find? fun l => jsIncludes l "Distance:"
    let durationLine := lines.find? fun l => jsIncludes l "Duration:"
    let destinationLine := lines.find? fun l =>
      jsIncludes l "📍" && !jsIncludes l "Distance" && !jsIncludes l "Duration"
    let r1 := match destinationLine with
      | some dl => "Navigation to " ++ jsTrim (String.mk (dl.data.filter (· ≠ '📍'))) ++ ". "
      | none => ""
    let r2 := match distanceLine with
      | some dl => jsTrim (String.mk (dl.data.filter (· ≠ '📏'))) ++ ". "
      | none => ""
    let r3 := match durationLine with
      | some dl => jsTrim (removeAllAny ["⏱️"] dl) ++ "."
      | none => ""
    let response := r1 ++ r2 ++ r3
    some (if response = "" then "Navigation route calculated." else response)
  else none

/-- Block 4a, temperature adjustment. -/
def speechTempBlock (cleanText : String) : Option String :=
  if jsIncludes cleanText "temperature" &&
      (jsIncludes cleanText "set" || jsIncludes cleanText "adjust") then
    some "Temperature adjusted."
  else none

/-- Block 4b, air conditioning; falls through when the guard holds but neither
state keyword is present. -/
def speechAcBlock (cleanText : String) : Option String :=
  if jsIncludes cleanText "air conditioning" || jsIncludes cleanText "ac" then
    if jsIncludes cleanText "turned on" || jsIncludes cleanText "enabled" then
      some "Air conditioning turned on."
    else if jsIncludes cleanText "turned off" || jsIncludes cleanText "disabled" then
      some "Air conditioning turned off."
    else none
  else none

/-- Block 4c, music. -/
def speechMusicBlock (cleanText : String) : Option String :=
  if jsIncludes cleanText "music" || jsIncludes cleanText "song" then
    if jsIncludes cleanText "playing" || jsIncludes cleanText "started" then
      some "Music started."
    else if jsIncludes cleanText "paused" || jsIncludes cleanText "stopped" then
      some "Music paused."
    else if jsIncludes cleanText "volume" then some "Volume adjusted."
    else none
  else none

/-- Block 4d, door locks. -/
def speechDoorsBlock (cleanText : String) : Option String :=
  if jsIncludes cleanText "doors" || jsIncludes cleanText "lock" then
    if jsIncludes cleanText "locked" then some "Doors locked."
    else if jsIncludes cleanText "unlocked" then some "Doors unlocked."
    else none
  else none

/-- Block 4e, lights. -/
def speechLightsBlock (cleanText : String) : Option String :=
  if jsIncludes cleanText "lights" then
    if jsIncludes cleanText "turned on" || jsIncludes cleanText "enabled" then
      some "Lights turned on."
    else if jsIncludes cleanText "turned off" || jsIncludes cleanText "disabled" then
      some "Lights turned off."
    else none
  else none

/-- Block 5, weather: temperature line and condition line joined with "with"
(always returns under its guard). -/
def speechWeatherBlock (text cleanText : String) : Option String :=
  if jsIncludes cleanText "weather" || jsIncludes cleanText "temperature" then
    let lines := jsLines text
    let tempLine := lines.find? fun l => jsIncludes l "°" || jsIncludes l "degrees"
    let conditionLine := lines.find? fun l =>
      jsIncludes l "Condition:" || jsIncludes l "Weather:"
    let r := match tempLine with
      | some tl => jsTrim (removeAllAny ["🌤️", "Temperature:", "🌡️"] tl)
      | none => ""
    let response := match conditionLine with
      | some cl =>
        let condition := jsTrim (removeAllAny ["Condition:", "Weather:", "🌤️"] cl)
        if r = "" then condition else r ++ " with " ++ condition
      | none => r
    some (if response = "" then "Weather information retrieved." else response)
  else none

/-- Block 6, apologies and errors: a fixed canned apology. -/
def speechApologyBlock (cleanText : String) : Option String :=
  if jsIncludes cleanText "sorry" || jsIncludes cleanText "error" ||
      jsIncludes cleanText "issue" then
    some "Sorry, I encountered an issue. Please try again."
  else none

/-- A sentence-splitting character of `text.split(/[.!?]+/)`. -/
def punctChar (c : Char) : Bool := c = '.' || c = '!' || c = '?'

/-- One right-fold step of the `[.!?]+` split: the boolean records whether the
character just to the right was punctuation, so that a whole punctuation run
opens only one new segment. -/
def splitPunctStep (c : Char) (acc : List (List Char) × Bool) : List (List Char) × Bool :=
  if punctChar c then
    if acc.2 then acc else ([] :: acc.1, true)
  else
    match acc.1 with
    | h :: t => ((c :: h) :: t, false)
    | [] => ([[c]], false)

/-- `text.split(/[.!?]+/)`: split at every maximal run of sentence
punctuation (empty boundary segments kept, as JavaScript does). -/
def splitPunct (l : List Char) : List (List Char) :=
  (l.foldr splitPunctStep ([[]], false)).1

/-- `text.split(/[.!?]+/).filter(s => s.trim().length > 0)`. -/
def speechSentences (text : String) : List String :=
  ((splitPunct text.data).map String.mk).filter fun t => (jsTrim t).length != 0

/-- Block 7, the general fallback: the first sentence, emoji-stripped, plus
the second sentence when the first is short; "Task completed." when no
sentence survives the split. -/
def speechFallback (text : String) : String :=
  let sentences := speechSentences text
  if 0 < sentences.length then
    let response := stripEmojis (jsTrim (sentences.getD 0 ""))
    if response.length < 50 ∧ 1 < sentences.length then
      response ++ ". " ++ jsTrim (stripEmojis (sentences.getD 1 ""))
    else response
  else "Task completed."

/-- `extractKeyInfoForSpeech` — the spec's `summarize`: the empty-input guard,
then the rule-ladder blocks in source order, then the sentence fallback. -/
def extractKeyInfoForSpeech (text : String) : String :=
  if (jsTrim text).length = 0 then ""
  else
    let cleanText := jsToLower text
    match speechBranch1 text cleanText with
    | some r => r
    | none =>
    match speechBranch2 text cleanText with
    | some r => r
    | none =>
    match speechBranch3 text cleanText with
    | some r => r
    | none =>
    match speechTempBlock cleanText with
    | some r => r
    | none =>
    match speechAcBlock cleanText with
    | some r => r
    | none =>
    match speechMusicBlock cleanText with
    | some r => r
    | none =>
    match speechDoorsBlock cleanText with
    | some r => r
    | none =>
    match speechLightsBlock cleanText with
    | some r => r
    | none =>
    match speechWeatherBlock text cleanText with
    | some r => r
    | none =>
    match speechApologyBlock cleanText with
    | some r => r
    | none => speechFallback text

/-! ## Calendar model

`new Date(ms)` calendar accessors (`toDateString`, `getFullYear`,
`toLocaleDateString`) are modelled on the UTC timeline with the standard
civil-from-days conversion for the proleptic Gregorian calendar. -/

/-- Civil date `(year, month, day)` of a day number counted from 1970-01-01. -/
def civilFromDays (z0 : Int) : Int × Nat × Nat :=
  let z := z0 + 719468
  let era := Int.fdiv z 146097
  let doe := (z - era * 146097).toNat
  let yoe := (doe - doe / 1460 + doe / 36524 - doe / 146096) / 365
  let y := (yoe : Int) + era * 400
  let doy := doe - (365 * yoe + yoe / 4 - yoe / 100)
  let mp := (5 * doy + 2) / 153
  let d := doy - (153 * mp + 2) / 5 + 1
  let m := if mp < 10 then mp + 3 else mp - 9
  (if m ≤ 2 then y + 1 else y, m, d)

/-- The civil date of an epoch-milliseconds timestamp (UTC). Equality of these
triples models equality of `toDateString()` values. -/
def civilOfMs (ms : Int) : Int × Nat × Nat :=
  civilFromDays (Int.fdiv ms 86400000)

/-- `en-US` short month names used by
`toLocaleDateString('en-US', { month: 'short', ... })`. -/
def monthShort : Nat → String
  | 1 => "Jan" | 2 => "Feb" | 3 => "Mar" | 4 => "Apr" | 5 => "May" | 6 => "Jun"
  | 7 => "Jul" | 8 => "Aug" | 9 => "Sep" | 10 => "Oct" | 11 => "Nov" | 12 => "Dec"
  | _ => ""

/-- `date.toLocaleDateString('en-US', { month: 'short', day: 'numeric', year:
date.getFullYear() !== now.getFullYear() ? 'numeric' : undefined })`. -/
def jsLocaleMonthDay (now date : Int) : String :=
  let c := civilOfMs date
  let cn := civilOfMs now
  if c.1 ≠ cn.1 then monthShort c.2.1 ++ " " ++ toString c.2.2 ++ ", " ++ toString c.1
  else monthShort c.2.1 ++ " " ++ toString c.2.2

/-- `formatSessionDate` (Dashboard.js 421-439): the display label from the
elapsed time `now - date`, floored to whole 24-hour days. -/
def formatSessionDate (now date : Int) : String :=
  let diffTime := now - date
  let diffDays := Int.fdiv diffTime 86400000
  if diffDays = 0 then "Today"
  else if diffDays = 1 then "Yesterday"
  else if diffDays < 7 then toString diffDays ++ " days ago"
  else jsLocaleMonthDay now date

/-! ## groupInteractionsBySessions (Dashboard.js 335-418) — the spec's
`reconstruct`

A persisted interaction; fields that may be absent in the backend record are
embedded as the empty string (the source only ever tests their truthiness and
trims them). `timestamp` is epoch milliseconds. -/

structure Interaction where
  user_input : String
  agent_response : String
  agent_id : String
  timestamp : Int
  actions_taken : List String
deriving DecidableEq, Repr

/-- One message of a reconstructed session (`type` is `user` / `assistant`). -/
structure SessionMsg where
  role : String
  content : String
  timestamp : Int
  agent_id : String
  actions_taken : List String
deriving DecidableEq, Repr

/-- A reconstructed session. `idx` is the deterministic loop-index component
of the generated session id (its `Date.now()` / `Math.random()` components are
impure and not part of the value model); `date` models the `toDateString()`
key; `interactions` is the source's message list field. -/
structure Session where
  idx : Nat
  date : Int × Nat × Nat
  displayDate : String
  startTime : Int
  lastInteraction : Int
  interactions : List SessionMsg
  messageCount : Nat
deriving DecidableEq, Repr

/-- Append the up-to-two messages an interaction contributes (user turn first,
then agent turn, each only when non-blank) and update the session's
last-activity timestamp. -/
def addMsgs (s : Session) (x : Interaction) : Session :=
  let s1 :=
    if (jsTrim x.user_input).length ≠ 0 then
      { s with
        interactions := s.interactions ++
          [{ role := "user", content := x.user_input, timestamp := x.timestamp,
             agent_id := x.agent_id, actions_taken := x.actions_taken }]
        messageCount := s.messageCount + 1 }
    else s
  let s2 :=
    if (jsTrim x.agent_response).length ≠ 0 then
      { s1 with
        interactions := s1.interactions ++
          [{ role := "assistant", content := x.agent_response, timestamp := x.timestamp,
             agent_id := x.agent_id, actions_taken := x.actions_taken }]
        messageCount := s1.messageCount + 1 }
    else s1
  { s2 with lastInteraction := x.timestamp }

/-- A fresh session opened at interaction `x` (loop index `i`). -/
def freshSession (now : Int) (x : Interaction) (i : Nat) : Session :=
  { idx := i
    date := civilOfMs x.timestamp
    displayDate := formatSessionDate now x.timestamp
    startTime := x.timestamp
    lastInteraction := x.timestamp
    interactions := []
    messageCount := 0 }

/-- The grouping loop over the sorted, index-paired interactions: a new
session starts when there is none, the calendar date changes, or the gap from
the session's last activity exceeds 30 minutes; sessions are produced in
creation order. -/
def buildSessions (now : Int) : List (Nat × Interaction) → Option Session → List Session
  | [], none => []
  | [], some c => [c]
  | (i, x) :: rest, none => buildSessions now rest (some (addMsgs (freshSession now x i) x))
  | (i, x) :: rest, some c =>
    if c.date ≠ civilOfMs x.timestamp ∨ 1800000 < x.timestamp - c.lastInteraction then
      c :: buildSessions now rest (some (addMsgs (freshSession now x i) x))
    else buildSessions now rest (some (addMsgs c x))

/-- The sort order of `(a, b) => new Date(a.timestamp) - new Date(b.timestamp)`. -/
def tsLe (a b : Interaction) : Prop := a.timestamp ≤ b.timestamp

instance : DecidableRel tsLe := fun a b => Int.decLe a.timestamp b.timestamp

/-- `[...interactions].sort((a, b) => new Date(a.timestamp) - new Date(b.timestamp))`:
a stable ascending sort by timestamp (ES2019 `Array.prototype.sort` is
required to be stable; insertion sort realizes the same function). -/
def jsSortByTimestamp (l : List Interaction) : List Interaction :=
  l.insertionSort tsLe

/-- `groupInteractionsBySessions` — the spec's `reconstruct`. `now` is the
clock reading used by the display-label formatting. The final `reverse` puts
the most recently started session first. -/
def groupInteractionsBySessions (now : Int) (interactions : List Interaction) : List Session :=
  if interactions.isEmpty then []
  else (buildSessions now (jsSortByTimestamp interactions).enum none).reverse

/-- A call of `groupInteractionsBySessions` observed together with the
caller's array after the call: the spread `[...interactions]` copies the
array and `.sort` mutates only that copy, so the caller's binding still holds
the original list; the returned `callerArray` records exactly that. -/
structure GroupCall where
  sessions : List Session
  callerArray : List Interaction
deriving DecidableEq, Repr

/-- `groupInteractionsBySessions` with the caller's array tracked through the
call (frame model for the in-place `.sort` on the spread copy). -/
def groupInteractionsBySessionsRun (now : Int) (arr : List Interaction) : GroupCall :=
  let copy := arr
  let sorted := jsSortByTimestamp copy
  { sessions := if arr.isEmpty then [] else (buildSessions now sorted.enum none).reverse
    callerArray := arr }

/-! ## WebSocketAPI (App.js 373-462) — the spec's ResilientSocketClient

The client's mutable fields, with the scheduled `setTimeout` retry made
explicit. Each event handler of the source becomes a transition. -/

structure WSState where
  socketExists : Bool
  isConnected : Bool
  reconnectAttempts : Nat
  maxReconnectAttempts : Nat
  pendingRetry : Option Nat
deriving DecidableEq, Repr

/-- The constructor (App.js 374-380). -/
def wsInit : WSState :=
  { socketExists := false, isConnected := false, reconnectAttempts := 0,
    maxReconnectAttempts := 5, pendingRetry := none }

/-- `connect`: a new socket is created (handlers installed); nothing else of
the tracked state changes, and no pending retry is cancelled. -/
def wsConnect (s : WSState) : WSState :=
  { s with socketExists := true }

/-- The `onopen` handler: connected, attempt counter reset (the identity
announcement `send` does not change the tracked state). -/
def wsOpen (s : WSState) : WSState :=
  { s with isConnected := true, reconnectAttempts := 0 }

/-- The `onclose` handler: below the attempt cap it increments the counter and
schedules `connect` after `2000 * attempts` ms; at the cap it only records the
disconnection. Returns the new state and the delay it scheduled, if any. -/
def wsClose (s : WSState) : WSState × Option Nat :=
  if s.reconnectAttempts < s.maxReconnectAttempts then
    let n := s.reconnectAttempts + 1
    ({ s with isConnected := false, reconnectAttempts := n, pendingRetry := some (2000 * n) },
      some (2000 * n))
  else ({ s with isConnected := false }, none)

/-- `disconnect` (App.js 455-461): close the socket, null it, mark
disconnected. No flag records that the close was intentional. -/
def wsDisconnect (s : WSState) : WSState :=
  if s.socketExists then { s with socketExists := false, isConnected := false } else s

/-- `n` consecutive close events applied to a state. -/
def wsCloseIter : Nat → WSState → WSState
  | 0, s => s
  | n + 1, s => wsCloseIter n (wsClose s).1

/-- The delay scheduled by the `n`-th consecutive close event (counting from
1) starting at `s0`; `none` when that close schedules no retry. -/
def nthReconnectDelay (s0 : WSState) : Nat → Option Nat
  | 0 => none
  | n + 1 => (wsClose (wsCloseIter n s0)).2

/-! ## Helper lemmas -/

lemma mem_of_leadsWith {pat l : List Char} (h : leadsWith pat l = true) {c : Char}
    (hc : c ∈ pat) : c ∈ l := by
  induction pat generalizing l with
  | nil => simp at hc
  | cons p ps ih =>
    cases l with
    | nil => simp [leadsWith] at h
    | cons b bs =>
      simp [leadsWith] at h
      rcases List.mem_cons.mp hc with rfl | hmem
      · exact List.mem_cons.mpr (Or.inl h.1)
      · exact List.mem_cons.mpr (Or.inr (ih h.2 hmem))

lemma mem_of_containsL {pat l : List Char} (h : containsL pat l = true) {c : Char}
    (hc : c ∈ pat) : c ∈ l := by
  induction l with
  | nil =>
    simp [containsL, List.isEmpty_iff] at h
    subst h; simp at hc
  | cons a rest ih =>
    rw [containsL, Bool.or_eq_true] at h
    rcases h with h | h
    · exact mem_of_leadsWith h hc
    · exact List.mem_cons.mpr (Or.inr (ih h))

lemma all_ws_of_trimList_nil {l : List Char} (h : trimList l = []) :
    ∀ c ∈ l, wsChar c = true := by
  intro c hc
  unfold trimList at h
  rw [List.reverse_eq_nil_iff] at h
  have h2 : ∀ x ∈ (l.dropWhile wsChar).reverse, wsChar x = true :=
    List.dropWhile_eq_nil_iff.mp h
  have h3 : ∀ x ∈ l.dropWhile wsChar, wsChar x = true := fun x hx =>
    h2 x (List.mem_reverse.mpr hx)
  rw [← List.takeWhile_append_dropWhile (p := wsChar) (l := l)] at hc
  rcases List.mem_append.mp hc with h4 | h4
  · exact List.mem_takeWhile_imp h4
  · exact h3 c h4

lemma toLower_eq_self_of_ws {c : Char} (h : c.isWhitespace = true) : c.toLower = c := by
  simp [Char.isWhitespace] at h
  rcases h with ((h | h) | h) | h <;> subst h <;> decide

/-- An input whose lowercase form contains a pattern with a non-whitespace
character does not trim to the empty string. -/
lemma trim_ne_zero_of_includes_lower {s pat : String} {c : Char}
    (hc : c ∈ pat.data) (hw : c.isWhitespace = false)
    (h : jsIncludes (jsToLower s) pat = true) : (jsTrim s).length ≠ 0 := by
  intro hlen
  have hl2 : (trimList s.data).length = 0 := hlen
  have hall := all_ws_of_trimList_nil (List.length_eq_zero.mp hl2)
  have hcmem : c ∈ (jsToLower s).data := mem_of_containsL h hc
  rw [show (jsToLower s).data = s.data.map Char.toLower from rfl, List.mem_map] at hcmem
  obtain ⟨x, hx, hxc⟩ := hcmem
  have hxw : x.isWhitespace = true := hall x hx
  rw [toLower_eq_self_of_ws hxw] at hxc
  subst hxc
  rw [hxw] at hw
  exact absurd hw (by simp)

lemma trimList_subset {l : List Char} : ∀ c ∈ trimList l, c ∈ l := by
  intro c hc
  unfold trimList at hc
  rw [List.mem_reverse] at hc
  have h1 := (List.dropWhile_sublist (l := (l.dropWhile wsChar).reverse) wsChar).subset hc
  rw [List.mem_reverse] at h1
  exact (List.dropWhile_sublist (l := l) wsChar).subset h1

lemma empty_of_length_zero {s : String} (h : s.length = 0) : s = "" := by
  cases s with
  | mk data =>
    have hd : data.length = 0 := h
    rw [List.length_eq_zero.mp hd]

/-! ## Claim C4 (code bug): reconnect fires after an explicit disconnect

The input trace: `connect()`, the `open` event, `disconnect()`, then the
`close` event that the explicitly closed socket fires. `disconnect` does set
the client disconnected, but the close handler — which has no flag recording
an intentional close — finds `reconnectAttempts = 0 < 5` and schedules a
reconnect in 2000 ms, contradicting the claim that no automatic reconnect is
ever scheduled after an explicit disconnect. -/

/-- Claim C4: after `connect`, `open`, an explicit `disconnect`, the client is
in the disconnected state, yet the ensuing close event schedules an automatic
reconnect attempt with delay 2000 ms — the close handler has no notion of an
intentional disconnect, so the spec's "no auto-reconnect fires from an
explicit disconnect" is violated by the code. -/
theorem claim4_reconnect_after_explicit_disconnect :
    (wsDisconnect (wsOpen (wsConnect wsInit))).isConnected = false ∧
    (wsDisconnect (wsOpen (wsConnect wsInit))).socketExists = false ∧
    (wsClose (wsDisconnect (wsOpen (wsConnect wsInit)))).2 = some 2000 := by
  refine ⟨rfl, rfl, rfl⟩

/-! ## Claim C5: linear backoff, capped at five attempts -/

lemma wsClose_snd (s : WSState) :
    (wsClose s).2 = if s.reconnectAttempts < s.maxReconnectAttempts
      then some (2000 * (s.reconnectAttempts + 1)) else none := by
  rw [wsClose]
  by_cases h : s.reconnectAttempts < s.maxReconnectAttempts
  · rw [if_pos h, if_pos h]
  · rw [if_neg h, if_neg h]

lemma wsClose_fst_attempts (s : WSState) :
    (wsClose s).1.reconnectAttempts = if s.reconnectAttempts < s.maxReconnectAttempts
      then s.reconnectAttempts + 1 else s.reconnectAttempts := by
  rw [wsClose]
  by_cases h : s.reconnectAttempts < s.maxReconnectAttempts
  · rw [if_pos h, if_pos h]
  · rw [if_neg h, if_neg h]

lemma wsClose_fst_max (s : WSState) :
    (wsClose s).1.maxReconnectAttempts = s.maxReconnectAttempts := by
  rw [wsClose]
  by_cases h : s.reconnectAttempts < s.maxReconnectAttempts
  · rw [if_pos h]
  · rw [if_neg h]

lemma wsCloseIter_state (n : Nat) : ∀ s : WSState, s.maxReconnectAttempts = 5 →
    s.reconnectAttempts ≤ 5 →
    (wsCloseIter n s).reconnectAttempts = min (s.reconnectAttempts + n) 5 ∧
    (wsCloseIter n s).maxReconnectAttempts = 5 := by
  induction n with
  | zero =>
    intro s h5 hle
    simpa [wsCloseIter] using ⟨by omega, h5⟩
  | succ n ih =>
    intro s h5 hle
    rw [wsCloseIter]
    obtain ⟨h1, h2⟩ := ih (wsClose s).1
      (by rw [wsClose_fst_max]; exact h5)
      (by rw [wsClose_fst_attempts]; split <;> omega)
    rw [wsClose_fst_attempts] at h1
    refine ⟨?_, h2⟩
    rw [h1]
    split <;> omega

/-- Claim C5: starting from the freshly constructed client, the `n`-th
consecutive close event (with no intervening open) schedules a reconnect with
delay exactly `2000·n` ms for `n = 1..5`, and every close event from the sixth
on schedules nothing — no sixth attempt is ever issued. -/
theorem claim5_backoff_delays (n : Nat) :
    (1 ≤ n → n ≤ 5 → nthReconnectDelay wsInit n = some (2000 * n)) ∧
    (6 ≤ n → nthReconnectDelay wsInit n = none) := by
  have base : ∀ k : Nat, (wsCloseIter k wsInit).reconnectAttempts = min k 5 ∧
      (wsCloseIter k wsInit).maxReconnectAttempts = 5 := fun k => by
    simpa [wsInit] using wsCloseIter_state k wsInit rfl (by simp [wsInit])
  constructor
  · intro h1 h5
    obtain ⟨k, rfl⟩ : ∃ k, n = k + 1 := ⟨n - 1, by omega⟩
    obtain ⟨ha, hm⟩ := base k
    rw [nthReconnectDelay, wsClose_snd, ha, hm, if_pos (by omega)]
    have : min k 5 + 1 = k + 1 := by omega
    rw [this]
  · intro h6
    obtain ⟨k, rfl⟩ : ∃ k, n = k + 1 := ⟨n - 1, by omega⟩
    obtain ⟨ha, hm⟩ := base k
    rw [nthReconnectDelay, wsClose_snd, ha, hm, if_neg (by omega)]

/-- Witness for C5 at concrete attempt numbers 3 and 6. -/
theorem claim5_backoff_delays_witness :
    nthReconnectDelay wsInit 3 = some (2000 * 3) ∧ nthReconnectDelay wsInit 6 = none :=
  ⟨(claim5_backoff_delays 3).1 (by decide) (by decide), (claim5_backoff_delays 6).2 (by decide)⟩

/-! ## Claim C9: the reconstruction does not mutate its argument -/

/-- Claim C9: a call of `groupInteractionsBySessions` leaves the caller's
interaction array exactly as it was — the spread `[...interactions]` copies
the array and the in-place `.sort` runs on that copy — and the sessions
computed from the copy are those of the pure function. -/
theorem claim9_no_mutation (now : Int) (arr : List Interaction) :
    (groupInteractionsBySessionsRun now arr).callerArray = arr ∧
    (groupInteractionsBySessionsRun now arr).sessions = groupInteractionsBySessions now arr :=
  ⟨rfl, rfl⟩

/-! ## Claim C1: the three-line place-search example -/

/-- The exact input of the claim (three lines, two numbered entries). -/
def c1input : String :=
  "Found 3 restaurants near you (sample)\n1. 📍 Cafe A (0.5 mi) ⭐ 4.5 🟢\n2. 📍 Cafe B (1.2 mi) ⭐ 4.0 🔴"

/-- Counterexample to claim C1: on the claimed input, `formatResponse` does
not return a place-search result at all — the input contains a pin glyph and
spans only three lines, so the location branch of the dispatch fires first. -/
theorem claim1_counterexample : (formatResponse c1input).isPlaceSearch = false := by
  decide

/-- Claim C1 as amended: on that exact input, `formatResponse` returns the
location variant carrying the first line, while the claimed place-search
structure (count 3, category "restaurants", the two entries with their
distances, ratings and open/closed status) is exactly what
`formatPlaceSearchResponse` produces when applied to the input directly. -/
theorem claim1_amended :
    formatResponse c1input = ClassifiedResult.location "Found 3 restaurants near you (sample)" ∧
    formatPlaceSearchResponse c1input = ClassifiedResult.placeSearch
      { count := "3", category := "restaurants",
        entries := [
          { name := "Cafe A", distance := "0.5 mi", rating := some "⭐ 4.5", status := "Open",
            address := "", mapsUrl := "https://www.google.com/maps/search/Cafe%20A" },
          { name := "Cafe B", distance := "1.2 mi", rating := some "⭐ 4.0", status := "Closed",
            address := "", mapsUrl := "https://www.google.com/maps/search/Cafe%20B" }] } := by
  constructor
  · decide
  · decide

/-! ## Claim C3: directions parsing degrades to the error variant -/

/-- The claim's own notion of "contains an explicit error-marker line": some
non-blank line of the input contains the ❌ glyph. -/
def hasErrorMarkerLine (s : String) : Bool :=
  (jsLines s).any fun l => jsIncludes l "❌"

/-- A directions input whose ❌ sits inside a numbered step line. -/
def c3badInput : String :=
  "🧭 Turn-by-turn directions\n📍 Destination: Airport\n📏 Distance: 5 km\n1. Go straight ❌"

/-- A directions input with a genuine error-marker line and no destination. -/
def c3errInput : String := "🧭 Turn-by-turn directions\n❌ Could not find route"

/-- Counterexample to claim C3: an input in the directions branch containing an
error-marker line (the ❌ inside a step line) for which `formatResponse` does
not return the error variant — the line scan classifies that line as a step,
so `hasError` is never set. -/
theorem claim3_counterexample :
    dirCondition c3badInput = true ∧ hasErrorMarkerLine c3badInput = true ∧
    formatResponse c3badInput ≠ ClassifiedResult.error c3badInput := by
  refine ⟨by decide, by decide, by decide⟩

/-- Claim C3 as amended: when the directions branch is selected and the line
scan either flags an error line (a ❌ line that is not itself a destination,
distance, duration, maps-link or step line) or finds no destination line, the
classifier returns the error variant carrying the original input verbatim. -/
theorem claim3_amended (s : String) (hd : dirCondition s = true)
    (h : (dirScan s).hasError = true ∨ (dirScan s).destination = "") :
    formatResponse s = ClassifiedResult.error s := by
  have hne : ¬ s.length = 0 := by
    intro h0
    rw [empty_of_length_zero h0] at hd
    exact absurd hd (by decide)
  have hcond : ((dirScan s).hasError || (dirScan s).destination == "") = true := by
    rcases h with h | h
    · simp [h]
    · simp [h]
  rw [formatResponse, if_neg hne, if_pos hd]
  rw [formatDirectionsResponse]
  simp only [hcond, if_pos]

/-- Witness for C3 on a concrete error response. -/
theorem claim3_amended_witness :
    formatResponse c3errInput = ClassifiedResult.error c3errInput :=
  claim3_amended c3errInput (by decide) (Or.inl (by decide))

/-! ## Claim C2: totality of the classifier -/

/-- Claim C2: for every input string the classifier returns exactly one of the
five result variants (it is a total function of the string — no exception is
modelled because none can occur), and whenever no dispatch rule matches, the
result is the general variant. -/
theorem claim2_classifier_total (s : String) :
    ((∃ d, formatResponse s = ClassifiedResult.directions d) ∨
     (∃ t, formatResponse s = ClassifiedResult.location t) ∨
     (∃ p, formatResponse s = ClassifiedResult.placeSearch p) ∨
     (∃ g, formatResponse s = ClassifiedResult.general g) ∨
     (∃ e, formatResponse s = ClassifiedResult.error e)) ∧
    ((dirCondition s || locCondition s || placeCondition s) = false →
      (formatResponse s).isGeneral = true) := by
  constructor
  · cases h : formatResponse s with
    | directions d => exact Or.inl ⟨d, rfl⟩
    | location t => exact Or.inr (Or.inl ⟨t, rfl⟩)
    | placeSearch p => exact Or.inr (Or.inr (Or.inl ⟨p, rfl⟩))
    | general g => exact Or.inr (Or.inr (Or.inr (Or.inl ⟨g, rfl⟩)))
    | error e => exact Or.inr (Or.inr (Or.inr (Or.inr ⟨e, rfl⟩)))
  · intro hf
    rw [Bool.or_eq_false_iff, Bool.or_eq_false_iff] at hf
    obtain ⟨⟨h1, h2⟩, h3⟩ := hf
    rw [formatResponse]
    by_cases h0 : s.length = 0
    · rw [if_pos h0]; rfl
    · rw [if_neg h0, if_neg (by simp [h1]), if_neg (by simp [h2]), if_neg (by simp [h3])]
      rfl

/-- Witness for C2 on a concrete rule-free input. -/
theorem claim2_classifier_total_witness :
    (dirCondition "hello" || locCondition "hello" || placeCondition "hello") = false ∧
    (formatResponse "hello").isGeneral = true :=
  ⟨by decide, (claim2_classifier_total "hello").2 (by decide)⟩

/-! ## Claim C6: order-invariance of the reconstruction -/

/-- The merge sort by timestamp produces a `<`-sorted list when the timestamps
are pairwise distinct. -/
lemma jsSort_sorted_lt {l : List Interaction}
    (hn : (l.map Interaction.timestamp).Nodup) :
    List.Sorted (fun a b : Interaction => a.timestamp < b.timestamp) (jsSortByTimestamp l) := by
  haveI : IsTotal Interaction tsLe := ⟨fun a b => le_total a.timestamp b.timestamp⟩
  haveI : IsTrans Interaction tsLe := ⟨fun a b c hab hbc => le_trans hab hbc⟩
  have hs : List.Sorted tsLe (jsSortByTimestamp l) := List.sorted_insertionSort tsLe l
  have hperm : List.Perm ((jsSortByTimestamp l).map Interaction.timestamp)
      (l.map Interaction.timestamp) := (List.perm_insertionSort tsLe l).map _
  have hn2 : ((jsSortByTimestamp l).map Interaction.timestamp).Nodup := hperm.nodup_iff.mpr hn
  have hne : (jsSortByTimestamp l).Pairwise (fun a b => a.timestamp ≠ b.timestamp) := by
    rw [List.Nodup, List.pairwise_map] at hn2
    exact hn2
  exact (hs.and hne).imp fun h => lt_of_le_of_ne h.1 h.2

/-- Two permuted interaction lists with pairwise-distinct timestamps sort to
the same list. -/
lemma jsSort_eq_of_perm {l1 l2 : List Interaction} (hp : l1.Perm l2)
    (hn : (l1.map Interaction.timestamp).Nodup) :
    jsSortByTimestamp l1 = jsSortByTimestamp l2 := by
  haveI : IsAntisymm Interaction (fun a b : Interaction => a.timestamp < b.timestamp) :=
    ⟨fun a b h1 h2 => absurd (h1.trans h2) (lt_irrefl _)⟩
  refine List.eq_of_perm_of_sorted
    (r := fun a b : Interaction => a.timestamp < b.timestamp) ?_ ?_ ?_
  · exact (List.perm_insertionSort tsLe l1).trans (hp.trans (List.perm_insertionSort tsLe l2).symm)
  · exact jsSort_sorted_lt hn
  · exact jsSort_sorted_lt ((hp.map Interaction.timestamp).nodup_iff.mp hn)

/-- Claim C6 as amended: the reconstruction is invariant under permutation of
its input provided the interactions carry pairwise-distinct timestamps (ties
are kept in caller order by the stable sort, so reorderings of tied
interactions can change the result). -/
theorem claim6_perm_invariant (now : Int) (l1 l2 : List Interaction) (hp : l1.Perm l2)
    (hn : (l1.map Interaction.timestamp).Nodup) :
    groupInteractionsBySessions now l1 = groupInteractionsBySessions now l2 := by
  have hs := jsSort_eq_of_perm hp hn
  rw [groupInteractionsBySessions, groupInteractionsBySessions, hs]
  have hlen := hp.length_eq
  have hemp : l1.isEmpty = l2.isEmpty := by
    cases l1 <;> cases l2 <;> simp_all
  rw [hemp]

/-- A user turn at the epoch. -/
def c6wA : Interaction :=
  { user_input := "hi", agent_response := "hello", agent_id := "core_agent",
    timestamp := 0, actions_taken := [] }

/-- A later interaction, one second after `c6wA`. -/
def c6wB : Interaction :=
  { user_input := "later", agent_response := "", agent_id := "",
    timestamp := 1000, actions_taken := [] }

/-- Witness for C6 on two distinct-timestamp interactions in both orders. -/
theorem claim6_perm_invariant_witness :
    groupInteractionsBySessions 0 [c6wA, c6wB] = groupInteractionsBySessions 0 [c6wB, c6wA] :=
  claim6_perm_invariant 0 [c6wA, c6wB] [c6wB, c6wA] (List.Perm.swap c6wB c6wA [])
    (by decide)

/-- An interaction tied in timestamp with `c6tieB` but with different content. -/
def c6tieA : Interaction :=
  { user_input := "first", agent_response := "", agent_id := "",
    timestamp := 0, actions_taken := [] }

/-- An interaction tied in timestamp with `c6tieA`. -/
def c6tieB : Interaction :=
  { user_input := "second", agent_response := "", agent_id := "",
    timestamp := 0, actions_taken := [] }

/-- Counterexample to claim C6 as stated: two orderings of the same multiset
of interactions (two records sharing one timestamp) produce different session
lists — the stable sort preserves the caller's order of the tie, so the
messages appear in different orders. -/
theorem claim6_counterexample :
    [c6tieA, c6tieB].Perm [c6tieB, c6tieA] ∧
    groupInteractionsBySessions 0 [c6tieA, c6tieB] ≠
      groupInteractionsBySessions 0 [c6tieB, c6tieA] :=
  ⟨List.Perm.swap c6tieB c6tieA [], by decide⟩

/-! ## Claim C7: session display labels -/

lemma space_mem_daysAgo (a : String) : ' ' ∈ (a ++ " days ago").data := by
  rw [String.data_append]
  exact List.mem_append.mpr (Or.inr (by decide))

lemma space_mem_spaceJoin (a b : String) : ' ' ∈ (a ++ " " ++ b).data := by
  rw [String.data_append, String.data_append]
  exact List.mem_append.mpr (Or.inl (List.mem_append.mpr (Or.inr (by decide))))

lemma space_mem_locale (now date : Int) : ' ' ∈ (jsLocaleMonthDay now date).data := by
  rw [jsLocaleMonthDay]
  by_cases h : (civilOfMs date).1 ≠ (civilOfMs now).1
  · rw [if_pos h]
    rw [show monthShort (civilOfMs date).2.1 ++ " " ++ toString (civilOfMs date).2.2 ++ ", " ++
        toString (civilOfMs date).1 =
        (monthShort (civilOfMs date).2.1 ++ " " ++ toString (civilOfMs date).2.2) ++
        (", " ++ toString (civilOfMs date).1) from by simp [String.append_assoc]]
    rw [String.data_append]
    exact List.mem_append.mpr (Or.inl (space_mem_spaceJoin _ _))
  · rw [if_neg h]
    exact space_mem_spaceJoin _ _

/-- Counterexample to claim C7: the timestamps 86,000,000 ms and 87,000,000 ms
fall on different calendar days (Jan 1 and Jan 2, 1970), yet the label
computed for the earlier one relative to the later one is "Today" — the code
compares 24-hour windows of elapsed time, not calendar days. -/
theorem claim7_counterexample :
    formatSessionDate 87000000 86000000 = "Today" ∧
    civilOfMs 86000000 ≠ civilOfMs 87000000 :=
  ⟨by decide, by decide⟩

/-- Claim C7 as amended: with `D = ⌊(now − start) / 24h⌋`, the label is
"Today" exactly when `D = 0`, "Yesterday" exactly when `D = 1`, `"<D> days
ago"` for any other `D < 7` (including negative `D` for future starts), and
for `D ≥ 7` a short-month/day label that appends the start's year exactly when
it differs from the current year (both on the UTC calendar). -/
theorem claim7_label_windows (now date : Int) :
    (formatSessionDate now date = "Today" ↔ Int.fdiv (now - date) 86400000 = 0) ∧
    (formatSessionDate now date = "Yesterday" ↔ Int.fdiv (now - date) 86400000 = 1) ∧
    (Int.fdiv (now - date) 86400000 ≠ 0 → Int.fdiv (now - date) 86400000 ≠ 1 →
      Int.fdiv (now - date) 86400000 < 7 →
      formatSessionDate now date = toString (Int.fdiv (now - date) 86400000) ++ " days ago") ∧
    (7 ≤ Int.fdiv (now - date) 86400000 →
      formatSessionDate now date =
        (if (civilOfMs date).1 ≠ (civilOfMs now).1 then
          monthShort (civilOfMs date).2.1 ++ " " ++ toString (civilOfMs date).2.2 ++ ", " ++
            toString (civilOfMs date).1
         else monthShort (civilOfMs date).2.1 ++ " " ++ toString (civilOfMs date).2.2)) := by
  by_cases h0 : Int.fdiv (now - date) 86400000 = 0
  · rw [formatSessionDate, if_pos h0]
    refine ⟨by simp [h0], ⟨fun h => absurd h (by decide), fun h => by omega⟩,
      fun hne0 _ _ => absurd h0 hne0, fun h7 => by omega⟩
  · by_cases h1 : Int.fdiv (now - date) 86400000 = 1
    · rw [formatSessionDate, if_neg h0, if_pos h1]
      refine ⟨⟨fun h => absurd h (by decide), fun h => absurd h h0⟩, by simp [h1],
        fun _ hne1 _ => absurd h1 hne1, fun h7 => by omega⟩
    · by_cases h7 : Int.fdiv (now - date) 86400000 < 7
      · rw [formatSessionDate, if_neg h0, if_neg h1, if_pos h7]
        refine ⟨⟨fun heq => ?_, fun h => absurd h h0⟩,
          ⟨fun heq => ?_, fun h => absurd h h1⟩, fun _ _ _ => rfl, fun hge => by omega⟩
        · have hsp := space_mem_daysAgo (toString (Int.fdiv (now - date) 86400000))
          rw [heq] at hsp
          exact absurd hsp (by decide)
        · have hsp := space_mem_daysAgo (toString (Int.fdiv (now - date) 86400000))
          rw [heq] at hsp
          exact absurd hsp (by decide)
      · rw [formatSessionDate, if_neg h0, if_neg h1, if_neg h7]
        refine ⟨⟨fun heq => ?_, fun h => absurd h h0⟩,
          ⟨fun heq => ?_, fun h => absurd h h1⟩, fun _ _ h => absurd h h7, fun _ => rfl⟩
        · have hsp := space_mem_locale now date
          rw [heq] at hsp
          exact absurd hsp (by decide)
        · have hsp := space_mem_locale now date
          rw [heq] at hsp
          exact absurd hsp (by decide)

/-- Witness for C7 at `D = 3` (three whole days of elapsed time). -/
theorem claim7_label_windows_witness :
    formatSessionDate 259200000 0 = toString (Int.fdiv (259200000 - 0) 86400000) ++ " days ago" :=
  (claim7_label_windows 259200000 0).2.2.1 (by decide) (by decide) (by decide)

/-! ## Claim C8: the air-conditioning confirmation -/

/-- An input landing in the AC branch: no earlier ladder rule fires. -/
def c8goodInput : String := "The air conditioning was turned on"

/-- An input that contains the claim's two keywords but hits the
temperature rule first. -/
def c8badInput : String := "Temperature set to 22. Air conditioning turned on."

/-- Counterexample to claim C8: an input containing both "air conditioning"
and "turned on" (case-insensitively) for which the summarizer returns
"Temperature adjusted." — the temperature rule sits earlier in the ladder and
its keywords ("temperature", "set") are also present. -/
theorem claim8_counterexample :
    jsIncludes (jsToLower c8badInput) "air conditioning" = true ∧
    jsIncludes (jsToLower c8badInput) "turned on" = true ∧
    extractKeyInfoForSpeech c8badInput ≠ "Air conditioning turned on." :=
  ⟨by decide, by decide, by decide⟩

/-- Claim C8 as amended: every input containing both "air conditioning" and
"turned on" (case-insensitively) whose text triggers none of the earlier
ladder rules — the location phrasings, "found"+"near", "distance:"+
"duration:", and "temperature" with "set"/"adjust" — summarizes to exactly
"Air conditioning turned on.". -/
theorem claim8_ac_confirmation (s : String)
    (hac : jsIncludes (jsToLower s) "air conditioning" = true)
    (hon : jsIncludes (jsToLower s) "turned on" = true)
    (h1 : (jsIncludes (jsToLower s) "your current location" ||
           jsIncludes (jsToLower s) "you are in" ||
           jsIncludes (jsToLower s) "you are at") = false)
    (h2 : (jsIncludes (jsToLower s) "found" && jsIncludes (jsToLower s) "near") = false)
    (h3 : (jsIncludes (jsToLower s) "distance:" && jsIncludes (jsToLower s) "duration:") = false)
    (h4 : (jsIncludes (jsToLower s) "temperature" &&
           (jsIncludes (jsToLower s) "set" || jsIncludes (jsToLower s) "adjust")) = false) :
    extractKeyInfoForSpeech s = "Air conditioning turned on." := by
  have hne : (jsTrim s).length ≠ 0 :=
    @trim_ne_zero_of_includes_lower s "air conditioning" 'a' (by decide) (by decide) hac
  have b1 : speechBranch1 s (jsToLower s) = none := by
    rw [speechBranch1, if_neg (by simp [h1])]
  have b2 : speechBranch2 s (jsToLower s) = none := by
    rw [speechBranch2, if_neg (by simp [h2])]
  have b3 : speechBranch3 s (jsToLower s) = none := by
    rw [speechBranch3, if_neg (by simp [h3])]
  have b4 : speechTempBlock (jsToLower s) = none := by
    rw [speechTempBlock, if_neg (by simp [h4])]
  have b5 : speechAcBlock (jsToLower s) = some "Air conditioning turned on." := by
    rw [speechAcBlock, if_pos (by simp [hac]), if_pos (by simp [hon])]
  rw [extractKeyInfoForSpeech, if_neg hne]
  simp only [b1, b2, b3, b4, b5]

/-- Witness for C8 on a concrete AC confirmation. -/
theorem claim8_ac_confirmation_witness :
    extractKeyInfoForSpeech c8goodInput = "Air conditioning turned on." :=
  claim8_ac_confirmation c8goodInput (by decide) (by decide) (by decide) (by decide)
    (by decide) (by decide)

/-! ## Claim C10: the empty-input guard and the "Task completed." fallback -/

/-- Invariant of the split fold: the segment list is never empty and every
character of every segment is non-punctuation. -/
lemma splitPunctF_invariant (l : List Char) :
    (l.foldr splitPunctStep ([[]], false)).1 ≠ [] ∧
    ∀ p ∈ (l.foldr splitPunctStep ([[]], false)).1, ∀ c ∈ p, punctChar c = false := by
  induction l with
  | nil =>
    refine ⟨by simp, ?_⟩
    intro p hp c hc
    simp at hp
    subst hp
    simp at hc
  | cons a rest ih =>
    rw [List.foldr_cons, splitPunctStep]
    by_cases hpa : punctChar a = true
    · rw [if_pos hpa]
      by_cases hflag : (rest.foldr splitPunctStep ([[]], false)).2 = true
      · rw [if_pos hflag]
        exact ih
      · rw [if_neg hflag]
        refine ⟨by simp, ?_⟩
        intro p hp c hc
        rcases List.mem_cons.mp hp with rfl | hp2
        · simp at hc
        · exact ih.2 p hp2 c hc
    · rw [if_neg hpa]
      rcases hsp : (rest.foldr splitPunctStep ([[]], false)).1 with _ | ⟨h, t⟩
      · exact absurd hsp ih.1
      · refine ⟨by simp, ?_⟩
        intro p hp c hc
        rcases List.mem_cons.mp hp with rfl | hp2
        · rcases List.mem_cons.mp hc with rfl | hc2
          · simpa using hpa
          · exact ih.2 h (hsp ▸ List.mem_cons_self h t) c hc2
        · exact ih.2 p (hsp ▸ List.mem_cons.mpr (Or.inr hp2)) c hc

/-- Every character of a sentence produced by the `[.!?]+` split is a
non-punctuation character. -/
lemma sentence_no_punct {s t : String} (h : t ∈ speechSentences s) :
    ∀ c ∈ t.data, punctChar c = false := by
  rw [speechSentences, List.mem_filter] at h
  obtain ⟨p, hp, hpt⟩ := List.mem_map.mp h.1
  subst hpt
  intro c hc
  exact (splitPunctF_invariant s.data).2 p hp c hc

/-- The input of the C10 counterexample: non-blank, with one sentence, routed
through the weather branch (it contains "temperature" and a "Condition:"
line whose payload is literally "Task completed."). -/
def c10badInput : String := "temperature\nCondition:Task completed."

/-- Counterexample to claim C10: a non-empty input that yields a sentence
under the `[.!?]+` split and still summarizes to "Task completed." — the
weather rule returns the condition-line payload verbatim, which here happens
to equal the fallback string. -/
theorem claim10_counterexample :
    (jsTrim c10badInput).length ≠ 0 ∧
    speechSentences c10badInput ≠ [] ∧
    extractKeyInfoForSpeech c10badInput = "Task completed." :=
  ⟨by decide, by decide, by decide⟩

/-- Claim C10 as amended: blank input (empty or whitespace-only) summarizes to
the empty string; and when no canned ladder rule fires — so control reaches
the sentence fallback — the summary is "Task completed." exactly when
splitting on `.`, `!`, `?` leaves no non-blank sentence (earlier canned rules,
such as the weather rule of the counterexample, can also emit the same fixed
string for inputs that do have sentences). -/
theorem claim10_empty_and_fallback (s : String) :
    ((jsTrim s).length = 0 → extractKeyInfoForSpeech s = "") ∧
    ((jsTrim s).length ≠ 0 →
     (jsIncludes (jsToLower s) "your current location" ||
       jsIncludes (jsToLower s) "you are in" ||
       jsIncludes (jsToLower s) "you are at") = false →
     (jsIncludes (jsToLower s) "found" && jsIncludes (jsToLower s) "near") = false →
     (jsIncludes (jsToLower s) "distance:" && jsIncludes (jsToLower s) "duration:") = false →
     (jsIncludes (jsToLower s) "weather" || jsIncludes (jsToLower s) "temperature") = false →
     (jsIncludes (jsToLower s) "air conditioning" || jsIncludes (jsToLower s) "ac") = false →
     (jsIncludes (jsToLower s) "music" || jsIncludes (jsToLower s) "song") = false →
     (jsIncludes (jsToLower s) "doors" || jsIncludes (jsToLower s) "lock") = false →
     jsIncludes (jsToLower s) "lights" = false →
     (jsIncludes (jsToLower s) "sorry" || jsIncludes (jsToLower s) "error" ||
       jsIncludes (jsToLower s) "issue") = false →
     (extractKeyInfoForSpeech s = "Task completed." ↔ speechSentences s = [])) := by
  constructor
  · intro h0
    rw [extractKeyInfoForSpeech, if_pos h0]
  · intro hne h1 h2 h3 hw hac hmu hdo hli hap
    have htemp : jsIncludes (jsToLower s) "temperature" = false :=
      (Bool.or_eq_false_iff.mp hw).2
    have b1 : speechBranch1 s (jsToLower s) = none := by
      rw [speechBranch1, if_neg (by simp [h1])]
    have b2 : speechBranch2 s (jsToLower s) = none := by
      rw [speechBranch2, if_neg (by simp [h2])]
    have b3 : speechBranch3 s (jsToLower s) = none := by
      rw [speechBranch3, if_neg (by simp [h3])]
    have b4 : speechTempBlock (jsToLower s) = none := by
      rw [speechTempBlock, if_neg (by simp [htemp])]
    have b5 : speechAcBlock (jsToLower s) = none := by
      rw [speechAcBlock, if_neg (by simp [hac])]
    have b6 : speechMusicBlock (jsToLower s) = none := by
      rw [speechMusicBlock, if_neg (by simp [hmu])]
    have b7 : speechDoorsBlock (jsToLower s) = none := by
      rw [speechDoorsBlock, if_neg (by simp [hdo])]
    have b8 : speechLightsBlock (jsToLower s) = none := by
      rw [speechLightsBlock, if_neg (by simp [hli])]
    have b9 : speechWeatherBlock s (jsToLower s) = none := by
      rw [speechWeatherBlock, if_neg (by simp [hw])]
    have b10 : speechApologyBlock (jsToLower s) = none := by
      rw [speechApologyBlock, if_neg (by simp [hap])]
    rw [extractKeyInfoForSpeech, if_neg hne]
    simp only [b1, b2, b3, b4, b5, b6, b7, b8, b9, b10]
    constructor
    · intro hres
      rcases hs : speechSentences s with _ | ⟨s1, rest⟩
      · rfl
      · exfalso
        rw [speechFallback, hs] at hres
        rw [if_pos (by simp)] at hres
        simp only [List.getD_cons_zero, List.getD_cons_succ, List.length_cons] at hres
        have hr1 : ∀ c ∈ (stripEmojis (jsTrim s1)).data, punctChar c = false := by
          intro c hc
          have hc1 : c ∈ (jsTrim s1).data := List.mem_of_mem_filter hc
          have hc2 : c ∈ s1.data := trimList_subset c hc1
          exact sentence_no_punct (hs ▸ List.mem_cons_self s1 rest) c hc2
        split at hres
        case isTrue hcond =>
          cases rest with
          | nil => simp at hcond
          | cons s2 rest2 =>
            simp only [List.getD_cons_zero] at hres
            have ht2 : ∀ c ∈ (jsTrim (stripEmojis s2)).data, punctChar c = false := by
              intro c hc
              have hc1 : c ∈ (stripEmojis s2).data := trimList_subset c hc
              have hc2 : c ∈ s2.data := List.mem_of_mem_filter hc1
              exact sentence_no_punct
                (hs ▸ List.mem_cons.mpr (Or.inr (List.mem_cons_self s2 rest2))) c hc2
            have hd := congrArg String.data hres
            rw [String.data_append, String.data_append] at hd
            have hlast := congrArg List.getLast? hd
            rw [List.getLast?_append, List.getLast?_append] at hlast
            rcases ht2d : (jsTrim (stripEmojis s2)).data with _ | ⟨d, ds⟩
            · rw [ht2d] at hlast
              simp at hlast
            · rw [ht2d] at hlast
              rcases hgl : (d :: ds).getLast? with _ | x
              · simp at hgl
              · rw [hgl] at hlast
                simp at hlast
                have hx : x ∈ (jsTrim (stripEmojis s2)).data :=
                  ht2d ▸ List.mem_of_mem_getLast? hgl
                have := ht2 x hx
                rw [hlast] at this
                simp [punctChar] at this
        case isFalse hcond =>
          have hd := congrArg String.data hres
          have hdot : '.' ∈ (stripEmojis (jsTrim s1)).data := by
            rw [hd]
            decide
          have := hr1 '.' hdot
          simp [punctChar] at this
    · intro hs
      rw [speechFallback, hs]
      rw [if_neg (by simp)]

/-- Witness for C10: whitespace-only input summarizes to the empty string, and
a punctuation-only input (no sentence) falls back to "Task completed.". -/
theorem claim10_empty_and_fallback_witness :
    extractKeyInfoForSpeech "   " = "" ∧ extractKeyInfoForSpeech "..." = "Task completed." :=
  ⟨(claim10_empty_and_fallback "   ").1 (by decide),
   ((claim10_empty_and_fallback "...").2 (by decide) (by decide) (by decide) (by decide)
     (by decide) (by decide) (by decide) (by decide) (by decide) (by decide)).mpr (by decide)⟩

end IVAS
